import Mathlib

/-!
Verification development for the movis composition/caching/blending core
(`movis/layer/composition.py`).

The `Composition` class and its operations are translated directly from the
source file. The `Component` class, the `CacheType`/`Direction` enums, the
`BlendingMode` enum and the `Transform` class live in modules that are not
part of the excerpt; their definitions are modelled from the spec where
needed (each such definition carries a doc comment starting
`Modelled from the spec:`).

Modelling conventions:
* Python floats are modelled by `ℚ` (the times appearing in the claims are
  exactly representable and all comparisons are exact in the range used).
* `numpy` frames are modelled by a `Frame` structure carrying the two pixel
  dimensions and a flat list of channel bytes (`h * w * 4` entries for a
  well-formed RGBA frame).
* Python dictionaries (`diskcache.Cache`, `WeakValueDictionary`) are
  modelled by association lists; assignment replaces the previous binding.
  The `WeakValueDictionary` used for the name index drops an entry only
  when its component is garbage collected; in every operation sequence
  considered here the removed component stays strongly reachable (it is
  returned to the caller or attached to a source component), so the model
  keeps such entries — matching CPython behaviour at the instant the
  operation returns.
* Mutating methods return a pair of an `Except PyErr` result and the
  resulting object state, so that error exits carry the (unchanged or
  partially-changed) state with them, mirroring where each `raise` sits in
  the Python control flow.
-/

namespace Movis

/-- Python floats, restricted to the exact values exercised by the claims. -/
abbrev Time := ℚ

/-- Python exceptions raised by the translated code. -/
inductive PyErr where
  | keyError (msg : String)
  | stopIteration
  | valueError (msg : String)
  | assertionError (msg : String)
  deriving DecidableEq, Repr

/-- Result-or-error, with `isOk` for assertions about success. -/
def exceptIsOk {α : Type} : Except PyErr α → Bool
  | .ok _ => true
  | .error _ => false

/-- A raster frame: pixel dimensions plus a flat list of channel bytes.
Models a `np.ndarray` of shape `(h, w, 4)` with `data.length = h * w * 4`
when well-formed. -/
structure Frame where
  h : Nat
  w : Nat
  data : List Nat
  deriving DecidableEq, Repr

/-- `np.zeros(current_shape + (4,), dtype=np.uint8)`. -/
def Frame.zeros (h w : Nat) : Frame :=
  ⟨h, w, List.replicate (h * w * 4) 0⟩

/-- Modelled from the spec: `Transform` (module `movis.transform`, not in the
excerpt) is an opaque, equality-comparable positioning descriptor; the only
construction the excerpt performs is `Transform(position=(w/2, h/2))`. -/
structure Transform where
  position : Time × Time
  deriving DecidableEq, Repr

/-- Modelled from the spec: the `CacheType` enum (module `movis.enum`, not in
the excerpt); the excerpt uses `CacheType.COMPOSITION` as the first element
of a composite cache key. -/
inductive CacheType where
  | composition
  | layer
  deriving DecidableEq, Repr

/-- The external Layer capability: `render(time) -> frame or absent`,
`duration`, and a deterministic content-identity function used for cache
sub-keys. -/
structure Layer where
  duration : Time
  render : Time → Option Frame
  key : Time → Nat

/-- Modelled from the spec: `Component` (module `movis.layer.component`, not
in the excerpt) wraps one Layer with placement metadata and an optional
alpha-matte target. -/
inductive Component where
  | mk (name : String) (layer : Layer) (transform : Transform)
      (offset : Time) (start_time : Time) (end_time : Time)
      (visible : Bool) (blending_mode : Nat) (origin_point : Nat)
      (alpha_matte_target : Option Component) : Component

def Component.name : Component → String
  | .mk n _ _ _ _ _ _ _ _ _ => n

def Component.layer : Component → Layer
  | .mk _ l _ _ _ _ _ _ _ _ => l

def Component.transform : Component → Transform
  | .mk _ _ tf _ _ _ _ _ _ _ => tf

def Component.offset : Component → Time
  | .mk _ _ _ o _ _ _ _ _ _ => o

def Component.start_time : Component → Time
  | .mk _ _ _ _ s _ _ _ _ _ => s

def Component.end_time : Component → Time
  | .mk _ _ _ _ _ e _ _ _ _ => e

def Component.visible : Component → Bool
  | .mk _ _ _ _ _ _ v _ _ _ => v

def Component.blending_mode : Component → Nat
  | .mk _ _ _ _ _ _ _ bm _ _ => bm

def Component.origin_point : Component → Nat
  | .mk _ _ _ _ _ _ _ _ op _ => op

def Component.alpha_matte_target : Component → Option Component
  | .mk _ _ _ _ _ _ _ _ _ m => m

/-- Modelled from the spec: `is_active(global_time)` is true iff
`start_time <= (global_time - offset) < end_time` and `visible`. -/
def Component.is_active (c : Component) (global_time : Time) : Bool :=
  c.visible && decide (c.start_time ≤ global_time - c.offset)
    && decide (global_time - c.offset < c.end_time)

/-- A Component's cache sub-key: the layer's content-identity at the resolved
layer-local time plus the structural parameters that affect pixel output. -/
structure SubKey where
  layer_key : Nat
  position : Time × Time
  blending_mode : Nat
  origin_point : Nat
  matte : Option String
  deriving DecidableEq, Repr

/-- Modelled from the spec: `Component.get_key(layer_time)` combines the
wrapped layer's content-identity with the component's structural parameters
(transform, blending mode, origin, alpha-matte linkage). -/
def Component.get_key (c : Component) (layer_time : Time) : SubKey :=
  { layer_key := c.layer.key layer_time
    position := c.transform.position
    blending_mode := c.blending_mode
    origin_point := c.origin_point
    matte := c.alpha_matte_target.map Component.name }

/-- Modelled from the spec: the pixel-level blend of a rendered patch into
the accumulator. The per-mode pixel formula is out of scope; what matters to
the pipeline contract is that the result keeps the accumulator's shape and
is a deterministic pointwise combination. -/
def blendInto (bg patch : Frame) : Frame :=
  { h := bg.h
    w := bg.w
    data := (List.range bg.data.length).map
      (fun i => max (bg.data.getD i 0) (patch.data.getD i 0)) }

/-- Modelled from the spec: `Component._composite(accumulator, time, preview_level)`
returns the accumulator unchanged when the component is not active, and
otherwise blends the layer's rendered patch (or nothing, when the layer
renders nothing) into the accumulator. The alpha-matte pixel math is out of
scope; it alters only pixel values, not the accumulator's shape. -/
def Component.composite (c : Component) (bg : Frame) (time : Time)
    (preview_level : Nat) : Frame :=
  if c.is_active time then
    match c.layer.render (time - c.offset) with
    | none => bg
    | some patch => blendInto bg patch
  else bg

/-- Modelled from the spec: `Component.enable_alpha_matte(target)` attaches
the target as this component's matte source; enabling from the LINKED state
fails (the previously linked target must be detached first). -/
def Component.enable_alpha_matte (c target : Component) : Except PyErr Component :=
  match c with
  | .mk n l tf o s e v bm op matte =>
    match matte with
    | some _ => .error (.valueError "alpha matte is already enabled")
    | none => .ok (.mk n l tf o s e v bm op (some target))

/-- The full-composition cache key: the `CacheType.COMPOSITION` tag followed
by, in layer order, `None` or the component's sub-key (Python builds this as
one tuple; the tag and the per-layer tail are split into two fields here). -/
structure CompKey where
  tag : CacheType
  entries : List (Option SubKey)
  deriving DecidableEq, Repr

/-- Association-list lookup modelling `dict.__getitem__` / `in`. -/
def alistLookup {α : Type} (k : String) : List (String × α) → Option α
  | [] => none
  | (k', v) :: rest => if k' = k then some v else alistLookup k rest

/-- Association-list update modelling `dict.__setitem__` (replace binding). -/
def alistInsert {α : Type} (k : String) (v : α) : List (String × α) → List (String × α)
  | [] => [(k, v)]
  | (k', v') :: rest => if k' = k then (k, v) :: rest else (k', v') :: alistInsert k v rest

/-- Cache lookup modelling `key in self._cache` / `self._cache[key]`. -/
def cacheLookup (k : CompKey) : List (CompKey × Frame) → Option Frame
  | [] => none
  | (k', f) :: rest => if k' = k then some f else cacheLookup k rest

/-- Cache deletion modelling `del self._cache[key]`. -/
def cacheErase (k : CompKey) : List (CompKey × Frame) → List (CompKey × Frame)
  | [] => []
  | (k', f) :: rest => if k' = k then rest else (k', f) :: cacheErase k rest

/-- Cache assignment modelling `self._cache[key] = frame`. -/
def cacheInsert (k : CompKey) (f : Frame) (m : List (CompKey × Frame)) :
    List (CompKey × Frame) :=
  (k, f) :: cacheErase k m

/-- The `Composition` state: `_layers`, `_name_to_layer`, `_duration`,
`_cache`, `_preview_level`, `_size`. -/
structure Composition where
  layers : List Component
  name_to_layer : List (String × Component)
  duration : Time
  cache : List (CompKey × Frame)
  preview_level : Nat
  size : Nat × Nat

/-- `Composition.__init__`. -/
def Composition.init (size : Nat × Nat) (duration : Time) : Composition :=
  { layers := []
    name_to_layer := []
    duration := duration
    cache := []
    preview_level := 1
    size := size }

/-- `Composition.keys()`: the layer names in paint order. -/
def Composition.keys (c : Composition) : List String :=
  c.layers.map Component.name

/-- `Composition.__getitem__`: lookup in the name index. -/
def Composition.getitem (c : Composition) (key : String) : Except PyErr Component :=
  match alistLookup key c.name_to_layer with
  | some v => .ok v
  | none => .error (.keyError key)

/-- `Composition.get_key(time)`: the `CacheType.COMPOSITION` tag followed by,
for every component in layer order, `None` when
`layer_time < start_time or end_time <= layer_time` (with
`layer_time = time - offset`) and the component's sub-key otherwise. -/
def Composition.get_key (c : Composition) (time : Time) : CompKey :=
  { tag := CacheType.composition
    entries := c.layers.map (fun component =>
      let layer_time := time - component.offset
      if layer_time < component.start_time ∨ component.end_time ≤ layer_time then
        none
      else
        some (component.get_key layer_time)) }

/-- CPython membership `name in self._layers` tests `name == component`
elementwise; `str.__eq__` on a `Component` returns `NotImplemented` and
`Component` (modelled from the spec) defines no cross-type equality, so each
comparison is `False`. -/
def pyStrEqComponent (name : String) (component : Component) : Bool :=
  false

/-- `Composition.add_layer` (all parameters explicit; `none` selects the
Python default). -/
def Composition.add_layer (c : Composition) (layer : Layer) (name : Option String)
    (transform : Option Transform) (offset : Time) (start_time : Time)
    (end_time : Option Time) (visible : Bool) (blending_mode : Nat)
    (origin_point : Nat) : Except PyErr Component × Composition :=
  let name := name.getD ("layer_" ++ toString c.layers.length)
  if c.layers.any (pyStrEqComponent name) then
    (.error (.keyError ("Layer with name " ++ name ++ " already exists")), c)
  else
    let end_time := end_time.getD layer.duration
    let transform := transform.getD
      ⟨(((c.size.1 : ℚ) / 2), ((c.size.2 : ℚ) / 2))⟩
    let component := Component.mk name layer transform offset start_time end_time
      visible blending_mode origin_point none
    (.ok component,
      { c with
        layers := c.layers ++ [component]
        name_to_layer := alistInsert name component c.name_to_layer })

/-- `Composition.__setitem__` for a `Component` value: unconditionally append
to the paint order and bind the key in the name index. (The `Layer` branch
of the Python union delegates to `add_layer(value, name=key)`.) -/
def Composition.setitem (c : Composition) (key : String) (value : Component ⊕ Layer) :
    Except PyErr Unit × Composition :=
  match value with
  | .inl component =>
    (.ok (),
      { c with
        layers := c.layers ++ [component]
        name_to_layer := alistInsert key component c.name_to_layer })
  | .inr layer =>
    let r := c.add_layer layer (some key) none 0 0 none true 0 0
    (r.1.map (fun _ => ()), r.2)

/-- The `next(i for i in range(len(self._layers)) if self._layers[i].name == name)`
followed by `self._layers.pop(index)`: remove and return the first component
with the given name, or `none` (→ `StopIteration`) when there is none. -/
def popFirst (name : String) : List Component → Option (Component × List Component)
  | [] => none
  | comp :: rest =>
    if comp.name = name then some (comp, rest)
    else
      match popFirst name rest with
      | none => none
      | some (x, rest') => some (x, comp :: rest')

/-- `Composition.pop_layer(name)`: `KeyError` when the name index has no
binding; otherwise pop the first component of that name from the paint order
(`StopIteration` if the paint order has none). The name index itself is not
touched — its weak entry disappears only when the component is collected,
and the popped component is returned alive to the caller. -/
def Composition.pop_layer (c : Composition) (name : String) :
    Except PyErr Component × Composition :=
  if (alistLookup name c.name_to_layer).isNone then
    (.error (.keyError ("Layer with name " ++ name ++ " does not exist")), c)
  else
    match popFirst name c.layers with
    | none => (.error .stopIteration, c)
    | some (component, rest) => (.ok component, { c with layers := rest })

/-- `Composition.enable_alpha_matte(source_name, target_name)`: assert both
names resolve, pop the target out of the paint order, attach it to the
source. The source object is mutated in place in Python; since it is aliased
by the paint order and the name index, the model rewrites it in both (the
rewrite is by name, which coincides with object identity whenever the name
is unique — true of every state built by `add_layer`). -/
def Composition.enable_alpha_matte (c : Composition) (source_name target_name : String) :
    Except PyErr Component × Composition :=
  if (alistLookup source_name c.name_to_layer).isNone ∨
      (alistLookup target_name c.name_to_layer).isNone then
    (.error (.assertionError "source and target must be in self.layers"), c)
  else
    match c.pop_layer target_name with
    | (.error e, c') => (.error e, c')
    | (.ok target, c') =>
      match c'.getitem source_name with
      | .error e => (.error e, c')
      | .ok source =>
        match source.enable_alpha_matte target with
        | .error e => (.error e, c')
        | .ok source' =>
          (.ok source',
            { c' with
              layers := c'.layers.map
                (fun x => if x.name = source_name then source' else x)
              name_to_layer := c'.name_to_layer.map
                (fun p => if p.1 = source_name then (p.1, source') else p) })

/-- `Composition.disable_alpha_matte(name)`: detach and return the matte of
the named source (mutating the source in place, rewritten in both views as
in `enable_alpha_matte`). -/
def Composition.disable_alpha_matte (c : Composition) (name : String) :
    Except PyErr (Option Component) × Composition :=
  match c.getitem name with
  | .error e => (.error e, c)
  | .ok source =>
    match source with
    | .mk n l tf o s e v bm op matte =>
      let source' := Component.mk n l tf o s e v bm op none
      (.ok matte,
        { c with
          layers := c.layers.map (fun x => if x.name = name then source' else x)
          name_to_layer := c.name_to_layer.map
            (fun p => if p.1 = name then (p.1, source') else p) })

/-- The recompute path of `Composition.__call__`: allocate a transparent
accumulator at the working resolution, fold every component's contribution
in paint order, store the result under the key. -/
def Composition.compute (c : Composition) (key : CompKey) (shape : Nat × Nat)
    (time : Time) : Frame × Composition :=
  let frame := c.layers.foldl
    (fun fr component => component.composite fr time c.preview_level)
    (Frame.zeros shape.1 shape.2)
  (frame, { c with cache := cacheInsert key frame c.cache })

/-- `Composition.__call__(time)` (the `render(t)` hot path): compute the
working resolution, build the key, return a cached frame whose shape still
matches, evict a cached frame whose shape does not, recompute on miss. -/
def Composition.call (c : Composition) (time : Time) : Frame × Composition :=
  let L := c.preview_level
  let shape := (c.size.2 / L, c.size.1 / L)
  let key := c.get_key time
  match cacheLookup key c.cache with
  | some cached_frame =>
    if (cached_frame.h, cached_frame.w) = shape then (cached_frame, c)
    else Composition.compute { c with cache := cacheErase key c.cache } key shape time
  | none => Composition.compute c key shape time

/-- `Composition.preview(level)` as a scoped block: assert `level > 0`, set
the preview level, run the body (which may itself mutate state and may exit
with an error), and restore the prior level on every exit path (`finally`). -/
def Composition.preview (c : Composition) (level : Nat)
    (body : Composition → Option PyErr × Composition) : Option PyErr × Composition :=
  if ¬ 0 < level then (some (.assertionError "level must be positive"), c)
  else
    let original_level := c.preview_level
    let r := body { c with preview_level := level }
    (r.1, { r.2 with preview_level := original_level })

/-- `Composition.final()` as a scoped block: set the preview level to 1, run
the body, restore the prior level on every exit path (`finally`). -/
def Composition.final (c : Composition)
    (body : Composition → Option PyErr × Composition) : Option PyErr × Composition :=
  let original_level := c.preview_level
  let r := body { c with preview_level := 1 }
  (r.1, { r.2 with preview_level := original_level })

/-- A cache is well-formed when every stored frame has the channel count its
own dimensions promise (`h * w * 4` bytes) — true of every frame numpy ever
produces and of every frame the render path stores. -/
def Composition.cacheWF (c : Composition) : Prop :=
  ∀ p ∈ c.cache, (p : CompKey × Frame).2.data.length = p.2.h * p.2.w * 4

instance (c : Composition) : Decidable c.cacheWF := by
  unfold Composition.cacheWF
  infer_instance

/-! ## Concrete fixtures used by counterexamples and witnesses -/

/-- A minimal Layer capability instance. -/
def dummyLayer : Layer :=
  { duration := 1, render := fun _ => none, key := fun _ => 0 }

/-- A layer with a two-second duration, used for the time-window fixture. -/
def windowLayer : Layer :=
  { duration := 2, render := fun _ => none, key := fun _ => 7 }

def compA : Component :=
  Component.mk "a" dummyLayer ⟨(0, 0)⟩ 0 0 1 true 0 0 none

def compB : Component :=
  Component.mk "b" dummyLayer ⟨(0, 0)⟩ 0 0 1 true 0 0 none

/-- An in-window but invisible component. -/
def hiddenComp : Component :=
  Component.mk "hidden" dummyLayer ⟨(0, 0)⟩ 0 0 1 false 0 0 none

/-- A component with `offset=0, start_time=1.0, end_time=2.0` (visible). -/
def windowComp : Component :=
  Component.mk "win" windowLayer ⟨(0, 0)⟩ 0 1 2 true 0 0 none

def emptyCompo : Composition := Composition.init (4, 2) 1

def oneLayerCompo : Composition :=
  { layers := [compA], name_to_layer := [("a", compA)]
    duration := 1, cache := [], preview_level := 1, size := (4, 2) }

def twoLayerCompo : Composition :=
  { layers := [compA, compB], name_to_layer := [("a", compA), ("b", compB)]
    duration := 1, cache := [], preview_level := 1, size := (4, 2) }

def hiddenCompo : Composition :=
  { layers := [hiddenComp], name_to_layer := [("hidden", hiddenComp)]
    duration := 1, cache := [], preview_level := 1, size := (4, 2) }

def windowCompo : Composition :=
  { layers := [windowComp], name_to_layer := [("win", windowComp)]
    duration := 2, cache := [], preview_level := 1, size := (4, 2) }

/-- `oneLayerCompo` after popping its only layer. -/
def poppedCompo : Composition := { oneLayerCompo with layers := [] }

/-- A block body that mutates state (including the preview level) and then
exits with an exception. -/
def errBody : Composition → Option PyErr × Composition :=
  fun s => (some .stopIteration, { s with preview_level := 99 })

/-- First call of the duplicate-name scenario: add a layer named "a". -/
def c3_step1 : Except PyErr Component × Composition :=
  emptyCompo.add_layer dummyLayer (some "a") none 0 0 none true 0 0

/-- Second call of the duplicate-name scenario: add another layer, also
named "a". -/
def c3_step2 : Except PyErr Component × Composition :=
  c3_step1.2.add_layer dummyLayer (some "a") none 0 0 none true 0 0

/-! ## Helper lemmas -/

theorem blendInto_h (bg patch : Frame) : (blendInto bg patch).h = bg.h := rfl

theorem blendInto_w (bg patch : Frame) : (blendInto bg patch).w = bg.w := rfl

theorem blendInto_len (bg patch : Frame) :
    (blendInto bg patch).data.length = bg.data.length := by
  simp [blendInto]

theorem composite_h (comp : Component) (bg : Frame) (t : Time) (L : Nat) :
    (comp.composite bg t L).h = bg.h := by
  unfold Component.composite
  split
  · cases comp.layer.render (t - comp.offset) <;> simp [blendInto_h]
  · rfl

theorem composite_w (comp : Component) (bg : Frame) (t : Time) (L : Nat) :
    (comp.composite bg t L).w = bg.w := by
  unfold Component.composite
  split
  · cases comp.layer.render (t - comp.offset) <;> simp [blendInto_w]
  · rfl

theorem composite_len (comp : Component) (bg : Frame) (t : Time) (L : Nat) :
    (comp.composite bg t L).data.length = bg.data.length := by
  unfold Component.composite
  split
  · cases comp.layer.render (t - comp.offset) <;> simp [blendInto_len]
  · rfl

theorem foldl_composite_h (comps : List Component) (t : Time) (L : Nat) :
    ∀ fr : Frame,
      (comps.foldl (fun fr component => component.composite fr t L) fr).h = fr.h := by
  induction comps with
  | nil => intro fr; rfl
  | cons comp rest ih =>
    intro fr
    simpa [List.foldl, composite_h] using ih (comp.composite fr t L)

theorem foldl_composite_w (comps : List Component) (t : Time) (L : Nat) :
    ∀ fr : Frame,
      (comps.foldl (fun fr component => component.composite fr t L) fr).w = fr.w := by
  induction comps with
  | nil => intro fr; rfl
  | cons comp rest ih =>
    intro fr
    simpa [List.foldl, composite_w] using ih (comp.composite fr t L)

theorem foldl_composite_len (comps : List Component) (t : Time) (L : Nat) :
    ∀ fr : Frame,
      (comps.foldl (fun fr component => component.composite fr t L) fr).data.length
        = fr.data.length := by
  induction comps with
  | nil => intro fr; rfl
  | cons comp rest ih =>
    intro fr
    simpa [List.foldl, composite_len] using ih (comp.composite fr t L)

theorem cacheLookup_insert (k : CompKey) (f : Frame) (m : List (CompKey × Frame)) :
    cacheLookup k (cacheInsert k f m) = some f := by
  simp [cacheInsert, cacheLookup]

theorem cacheLookup_mem {k : CompKey} {m : List (CompKey × Frame)} {f : Frame}
    (h : cacheLookup k m = some f) : (k, f) ∈ m := by
  induction m with
  | nil => simp [cacheLookup] at h
  | cons p rest ih =>
    rcases p with ⟨k', f'⟩
    by_cases hk : k' = k
    · subst hk
      simp [cacheLookup] at h
      subst h
      exact List.mem_cons_self _ _
    · simp [cacheLookup, hk] at h
      exact List.mem_cons_of_mem _ (ih h)

/-- `compute` spec: the produced frame and the state change. -/
theorem compute_spec (c : Composition) (key : CompKey) (shape : Nat × Nat) (t : Time) :
    (c.compute key shape t).1.h = shape.1 ∧
    (c.compute key shape t).1.w = shape.2 ∧
    (c.compute key shape t).1.data.length = shape.1 * shape.2 * 4 ∧
    (c.compute key shape t).2
      = { c with cache := cacheInsert key (c.compute key shape t).1 c.cache } := by
  unfold Composition.compute
  refine ⟨?_, ?_, ?_, rfl⟩
  · simpa using foldl_composite_h c.layers t c.preview_level (Frame.zeros shape.1 shape.2)
  · simpa using foldl_composite_w c.layers t c.preview_level (Frame.zeros shape.1 shape.2)
  · simpa [Frame.zeros] using
      foldl_composite_len c.layers t c.preview_level (Frame.zeros shape.1 shape.2)

/-- `__call__` touches only the cache: every other field is preserved. -/
theorem call_preserves_fields (c : Composition) (t : Time) :
    (c.call t).2.layers = c.layers ∧
    (c.call t).2.name_to_layer = c.name_to_layer ∧
    (c.call t).2.duration = c.duration ∧
    (c.call t).2.preview_level = c.preview_level ∧
    (c.call t).2.size = c.size := by
  unfold Composition.call
  rcases h : cacheLookup (c.get_key t) c.cache with _ | f
  · simp only [h]
    rcases compute_spec c (c.get_key t) (c.size.2 / c.preview_level, c.size.1 / c.preview_level) t
      with ⟨_, _, _, h2⟩
    rw [h2]
    exact ⟨rfl, rfl, rfl, rfl, rfl⟩
  · simp only [h]
    split
    · exact ⟨rfl, rfl, rfl, rfl, rfl⟩
    · rcases compute_spec { c with cache := cacheErase (c.get_key t) c.cache } (c.get_key t)
        (c.size.2 / c.preview_level, c.size.1 / c.preview_level) t with ⟨_, _, _, h2⟩
      rw [h2]
      exact ⟨rfl, rfl, rfl, rfl, rfl⟩

/-- `get_key` depends only on the layer list. -/
theorem get_key_congr {c c' : Composition} (h : c'.layers = c.layers) (t : Time) :
    c'.get_key t = c.get_key t := by
  simp [Composition.get_key, h]

theorem alistLookup_insert {α : Type} (k : String) (v : α) (m : List (String × α)) :
    alistLookup k (alistInsert k v m) = some v := by
  induction m with
  | nil => simp [alistInsert, alistLookup]
  | cons p rest ih =>
    rcases p with ⟨k', v'⟩
    by_cases hk : k' = k
    · simp [alistInsert, alistLookup, hk]
    · simp [alistInsert, alistLookup, hk, ih]

/-- Popping the first component of a name drops exactly one occurrence of
that name from the paint order, and the popped component bears that name. -/
theorem popFirst_count (name : String) :
    ∀ {l : List Component} {x : Component} {rest : List Component},
      popFirst name l = some (x, rest) →
      x.name = name ∧
        (rest.map Component.name).count name + 1 = (l.map Component.name).count name := by
  intro l
  induction l with
  | nil => intro x rest h; simp [popFirst] at h
  | cons comp tail ih =>
    intro x rest h
    unfold popFirst at h
    by_cases hc : comp.name = name
    · rw [if_pos hc] at h
      simp only [Option.some.injEq, Prod.mk.injEq] at h
      obtain ⟨hx, hrest⟩ := h
      subst hx
      subst hrest
      refine ⟨hc, ?_⟩
      simp [List.count_cons, hc]
    · rw [if_neg hc] at h
      rcases hp : popFirst name tail with _ | ⟨y, rest'⟩
      · rw [hp] at h; simp at h
      · rw [hp] at h
        simp only [Option.some.injEq, Prod.mk.injEq] at h
        obtain ⟨hx, hrest⟩ := h
        subst hx
        subst hrest
        obtain ⟨hy, hcount⟩ := ih hp
        refine ⟨hy, ?_⟩
        simp only [List.map_cons, List.count_cons]
        have hne : ¬ comp.name = name := hc
        simp [hne]
        omega

/-- The shape facts of `__call__` that need no cache well-formedness: the
returned frame has the current working dimensions, and afterwards the key
maps to the returned frame. -/
theorem call_shape (c : Composition) (t : Time) :
    (c.call t).1.h = c.size.2 / c.preview_level ∧
    (c.call t).1.w = c.size.1 / c.preview_level ∧
    cacheLookup (c.get_key t) (c.call t).2.cache = some (c.call t).1 := by
  unfold Composition.call
  rcases h : cacheLookup (c.get_key t) c.cache with _ | f
  · simp only [h]
    obtain ⟨h1, h2, _, h4⟩ := compute_spec c (c.get_key t)
      (c.size.2 / c.preview_level, c.size.1 / c.preview_level) t
    exact ⟨h1, h2, by rw [h4]; exact cacheLookup_insert _ _ _⟩
  · simp only [h]
    split
    case isTrue hguard =>
      have hh : f.h = c.size.2 / c.preview_level := congrArg Prod.fst hguard
      have hw : f.w = c.size.1 / c.preview_level := congrArg Prod.snd hguard
      exact ⟨hh, hw, h⟩
    case isFalse hguard =>
      obtain ⟨h1, h2, _, h4⟩ := compute_spec { c with cache := cacheErase (c.get_key t) c.cache }
        (c.get_key t) (c.size.2 / c.preview_level, c.size.1 / c.preview_level) t
      exact ⟨h1, h2, by rw [h4]; exact cacheLookup_insert _ _ _⟩

/-- With a well-formed cache, the frame returned by `__call__` has the full
`h * w * 4` channel payload. -/
theorem call_len (c : Composition) (t : Time) (hwf : c.cacheWF) :
    (c.call t).1.data.length = (c.call t).1.h * (c.call t).1.w * 4 := by
  unfold Composition.call
  rcases h : cacheLookup (c.get_key t) c.cache with _ | f
  · simp only [h]
    obtain ⟨h1, h2, h3, _⟩ := compute_spec c (c.get_key t)
      (c.size.2 / c.preview_level, c.size.1 / c.preview_level) t
    rw [h1, h2, h3]
  · simp only [h]
    split
    case isTrue hguard =>
      exact hwf _ (cacheLookup_mem h)
    case isFalse hguard =>
      obtain ⟨h1, h2, h3, _⟩ := compute_spec { c with cache := cacheErase (c.get_key t) c.cache }
        (c.get_key t) (c.size.2 / c.preview_level, c.size.1 / c.preview_level) t
      rw [h1, h2, h3]

/-- The entries of the composite key, rewritten from the code's negated
guard (`layer_time < start_time or end_time <= layer_time` → absent) to the
positive half-open-window form. -/
theorem get_key_entries_eq (c : Composition) (t : Time) :
    (c.get_key t).entries = c.layers.map (fun component =>
      if component.start_time ≤ t - component.offset ∧
          t - component.offset < component.end_time then
        some (component.get_key (t - component.offset))
      else none) := by
  simp only [Composition.get_key]
  refine List.map_congr_left ?_
  intro component _
  by_cases hP : component.start_time ≤ t - component.offset ∧
      t - component.offset < component.end_time
  · have hneg : ¬ (t - component.offset < component.start_time ∨
        component.end_time ≤ t - component.offset) := by
      push_neg
      exact ⟨hP.1, hP.2⟩
    rw [if_neg hneg, if_pos hP]
  · have hpos : t - component.offset < component.start_time ∨
        component.end_time ≤ t - component.offset := by
      by_contra hno
      push_neg at hno
      exact hP hno
    rw [if_pos hpos, if_neg hP]

/-- Calling `__call__` again on the state it returned reproduces the same
frame and the same state. -/
theorem call_stable (c : Composition) (t : Time) :
    (c.call t).2.call t = c.call t := by
  obtain ⟨hl, hn, hd, hp, hs⟩ := call_preserves_fields c t
  obtain ⟨hh, hw, hcache⟩ := call_shape c t
  rcases hc : c.call t with ⟨f1, c1⟩
  rw [hc] at hl hn hp hs hh hw hcache
  dsimp only at hl hn hp hs hh hw hcache
  show c1.call t = (f1, c1)
  have hcond : (f1.h, f1.w) = (c.size.2 / c.preview_level, c.size.1 / c.preview_level) := by
    rw [hh, hw]
  simp only [Composition.call, get_key_congr hl t, hp, hs, hcache]
  rw [if_pos hcond]

/-! ## Claim theorems -/

/-- Claim C1, counterexample: an invisible component whose time window
contains the requested time is not active, yet `Composition.get_key` still
records its sub-key instead of an absent entry — refuting "absent exactly
when the component is not active", since activity requires `visible`. -/
theorem get_key_ignores_visibility_cex :
    hiddenComp.is_active (1 / 2) = false ∧
    (hiddenCompo.get_key (1 / 2)).entries = [some (hiddenComp.get_key (1 / 2))] := by
  constructor
  · rfl
  · rw [get_key_entries_eq]
    show [if (0 : ℚ) ≤ 1 / 2 - 0 ∧ (1 : ℚ) / 2 - 0 < 1 then
        some (hiddenComp.get_key (1 / 2 - 0)) else none]
      = [some (hiddenComp.get_key (1 / 2))]
    norm_num

/-- Claim C1, amended: for every Composition and time `t`, `get_key t` is
tagged with the composition cache type and carries, for every direct
component in layer order, an absent entry exactly when the layer-local time
`t - offset` falls outside the half-open window `[start_time, end_time)` —
visibility plays no part — and otherwise that component's own sub-key at the
resolved layer-local time. -/
theorem get_key_window_characterization (c : Composition) (t : Time) :
    (c.get_key t).tag = CacheType.composition ∧
    (c.get_key t).entries = c.layers.map (fun component =>
      if component.start_time ≤ t - component.offset ∧
          t - component.offset < component.end_time then
        some (component.get_key (t - component.offset))
      else none) := by
  exact ⟨rfl, get_key_entries_eq c t⟩

/-- Claim C2: `render(t)` always returns a frame whose pixel dimensions are
`(height / L, width / L, 4)` for the preview level `L` current at call time;
a cached frame with mismatched resolution is never returned — afterwards the
key maps to the returned, correctly-sized frame (the stale entry having been
evicted and the frame recomputed). -/
theorem render_resolution_correct (c : Composition) (t : Time) (hwf : c.cacheWF) :
    (c.call t).1.h = c.size.2 / c.preview_level ∧
    (c.call t).1.w = c.size.1 / c.preview_level ∧
    (c.call t).1.data.length = (c.call t).1.h * (c.call t).1.w * 4 ∧
    cacheLookup (c.get_key t) (c.call t).2.cache = some (c.call t).1 := by
  obtain ⟨h1, h2, h3⟩ := call_shape c t
  exact ⟨h1, h2, call_len c t hwf, h3⟩

/-- Witness for C2 at a concrete composition with an empty (well-formed)
cache. -/
theorem render_resolution_correct_witness :
    emptyCompo.cacheWF ∧
    ((emptyCompo.call 0).1.h = emptyCompo.size.2 / emptyCompo.preview_level ∧
      (emptyCompo.call 0).1.w = emptyCompo.size.1 / emptyCompo.preview_level ∧
      (emptyCompo.call 0).1.data.length
        = (emptyCompo.call 0).1.h * (emptyCompo.call 0).1.w * 4 ∧
      cacheLookup (emptyCompo.get_key 0) (emptyCompo.call 0).2.cache
        = some (emptyCompo.call 0).1) :=
  ⟨by intro p hp; simp [emptyCompo, Composition.init] at hp,
    render_resolution_correct emptyCompo 0
      (by intro p hp; simp [emptyCompo, Composition.init] at hp)⟩

/-- Claim C3: the code intends to reject a duplicate layer name (its error
message says "already exists"), but the membership test
`name in self._layers` asks whether the *string* equals some *Component*,
which is always false; adding a second layer under an existing name
therefore succeeds and leaves two direct layers named "a". -/
theorem duplicate_name_not_rejected :
    exceptIsOk c3_step1.1 = true ∧ exceptIsOk c3_step2.1 = true ∧
    c3_step2.2.keys = ["a", "a"] := by
  refine ⟨rfl, rfl, rfl⟩

/-- Claim C4, counterexample: popping the only layer "a" succeeds and
removes it from the paint order, yet `__getitem__("a")` still succeeds
afterwards — the weak name index keeps the entry while the returned
component is alive, refuting "looking the removed name up by `__getitem__`
fails". -/
theorem pop_layer_name_still_resolvable_cex :
    exceptIsOk (oneLayerCompo.pop_layer "a").1 = true ∧
    (oneLayerCompo.pop_layer "a").2.keys = [] ∧
    exceptIsOk ((oneLayerCompo.pop_layer "a").2.getitem "a") = true := by
  refine ⟨rfl, rfl, rfl⟩

/-- Claim C4, amended: `pop_layer(name)` removes the name from the paint
order only — one occurrence fewer among the direct layers, so with unique
names it is no longer a direct layer — while the name index is untouched at
return time (the popped component is returned alive, so its weak entry
survives) and `__getitem__` resolves the name exactly as before; likewise
after `enable_alpha_matte("a","b")`, "b" is gone from the direct layers but
still resolvable by `__getitem__`. -/
theorem pop_layer_keeps_name_index :
    (∀ (c : Composition) (nm : String) (component : Component) (c' : Composition),
        c.pop_layer nm = (.ok component, c') →
        c'.name_to_layer = c.name_to_layer ∧
        c'.getitem nm = c.getitem nm ∧
        c'.keys.count nm + 1 = c.keys.count nm) ∧
    ((twoLayerCompo.enable_alpha_matte "a" "b").2.keys = ["a"] ∧
      exceptIsOk ((twoLayerCompo.enable_alpha_matte "a" "b").2.getitem "b") = true) := by
  constructor
  · intro c nm component c' h
    unfold Composition.pop_layer at h
    by_cases hn : (alistLookup nm c.name_to_layer).isNone
    · rw [if_pos hn] at h
      exact absurd (congrArg Prod.fst h) (by simp)
    · rw [if_neg hn] at h
      rcases hp : popFirst nm c.layers with _ | ⟨x, rest⟩
      · rw [hp] at h
        exact absurd (congrArg Prod.fst h) (by simp)
      · rw [hp] at h
        have hfst := congrArg Prod.fst h
        have hsnd := congrArg Prod.snd h
        dsimp only at hfst hsnd
        obtain rfl := Except.ok.inj hfst
        subst hsnd
        exact ⟨rfl, rfl, (popFirst_count nm hp).2⟩
  · exact ⟨rfl, rfl⟩

/-- Witness for the amended C4 at the one-layer fixture. -/
theorem pop_layer_keeps_name_index_witness :
    oneLayerCompo.pop_layer "a" = (.ok compA, poppedCompo) ∧
    (poppedCompo.name_to_layer = oneLayerCompo.name_to_layer ∧
      poppedCompo.getitem "a" = oneLayerCompo.getitem "a" ∧
      poppedCompo.keys.count "a" + 1 = oneLayerCompo.keys.count "a") :=
  ⟨rfl, pop_layer_keeps_name_index.1 oneLayerCompo "a" compA poppedCompo rfl⟩

/-- Claim C5: rendering the same time twice in succession, with nothing
changed in between, returns bit-identical frames, and the second call leaves
the entire state — the cache included — exactly as the first call left it. -/
theorem render_idempotent (c : Composition) (t : Time) :
    ((c.call t).2.call t).1 = (c.call t).1 ∧ ((c.call t).2.call t).2 = (c.call t).2 := by
  rw [call_stable c t]
  exact ⟨rfl, rfl⟩

/-- Claim C6: for the component with `offset=0, start_time=1.0, end_time=2.0`
the window is half-open — it is active, and its key entry non-absent,
exactly when `1 <= t < 2` (so at `t=1` yes, at `t=2` and `t<1` no). -/
theorem half_open_window (t : Time) :
    windowComp.is_active t = decide ((1 : ℚ) ≤ t ∧ t < 2) ∧
    (windowCompo.get_key t).entries =
      [if (1 : ℚ) ≤ t ∧ t < 2 then some (windowComp.get_key t) else none] := by
  constructor
  · show (true && decide ((1 : ℚ) ≤ t - 0) && decide (t - 0 < 2))
      = decide ((1 : ℚ) ≤ t ∧ t < 2)
    simp [sub_zero, Bool.decide_and]
  · rw [get_key_entries_eq]
    show [if (1 : ℚ) ≤ t - 0 ∧ t - 0 < 2 then some (windowComp.get_key (t - 0)) else none]
      = [if (1 : ℚ) ≤ t ∧ t < 2 then some (windowComp.get_key t) else none]
    rw [sub_zero]

/-- Claim C7: the scoped preview operations set the preview level for the
duration of the block (the body observes the requested level, here recorded
into `size` by a probe body) and restore the prior level on every exit
path — the quantified body may mutate state arbitrarily and exit with an
error. -/
theorem scoped_preview_restores (c : Composition) (level : Nat)
    (body : Composition → Option PyErr × Composition) (h : 0 < level) :
    (c.preview level body).2.preview_level = c.preview_level ∧
    (c.final body).2.preview_level = c.preview_level ∧
    (c.preview level (fun s =>
        (none, { s with size := (s.preview_level, s.preview_level) }))).2.size
      = (level, level) := by
  have hno : ¬ ¬ 0 < level := not_not_intro h
  refine ⟨?_, rfl, ?_⟩
  · unfold Composition.preview
    rw [if_neg hno]
  · unfold Composition.preview
    rw [if_neg hno]

/-- Witness for C7: level 3 with a body that both clobbers the preview level
and exits with an exception. -/
theorem scoped_preview_restores_witness :
    0 < 3 ∧
    ((oneLayerCompo.preview 3 errBody).2.preview_level = oneLayerCompo.preview_level ∧
      (oneLayerCompo.final errBody).2.preview_level = oneLayerCompo.preview_level ∧
      (oneLayerCompo.preview 3 (fun s =>
          (none, { s with size := (s.preview_level, s.preview_level) }))).2.size
        = (3, 3)) :=
  ⟨by decide, scoped_preview_restores oneLayerCompo 3 errBody (by decide)⟩

/-- Claim C8: `render(t)`'s only side effect is on the cache — the layer
sequence, the name index, size, duration and preview level are unchanged. -/
theorem render_only_mutates_cache (c : Composition) (t : Time) :
    (c.call t).2.layers = c.layers ∧
    (c.call t).2.name_to_layer = c.name_to_layer ∧
    (c.call t).2.size = c.size ∧
    (c.call t).2.duration = c.duration ∧
    (c.call t).2.preview_level = c.preview_level := by
  obtain ⟨h1, h2, h3, h4, h5⟩ := call_preserves_fields c t
  exact ⟨h1, h2, h5, h3, h4⟩

/-- Claim C9: `pop_layer` on a name absent from the name index fails
immediately with the not-found `KeyError` and returns the state unchanged. -/
theorem pop_layer_missing_name_errors (c : Composition) (nm : String)
    (h : alistLookup nm c.name_to_layer = none) :
    c.pop_layer nm
      = (.error (.keyError ("Layer with name " ++ nm ++ " does not exist")), c) := by
  unfold Composition.pop_layer
  rw [h]
  rfl

/-- Witness for C9 on the empty composition. -/
theorem pop_layer_missing_name_errors_witness :
    alistLookup "zzz" emptyCompo.name_to_layer = none ∧
    emptyCompo.pop_layer "zzz"
      = (.error (.keyError ("Layer with name " ++ "zzz" ++ " does not exist")), emptyCompo) :=
  ⟨rfl, pop_layer_missing_name_errors emptyCompo "zzz" rfl⟩

/-- Claim C10: `composition[key] = component` unconditionally appends the
component to the end of the paint order and binds the key in the name index
— no duplicate-name check and no check that the key equals the component's
own name (the universal quantification over `key` and `component` is
unconstrained); concretely, binding a component named "b" under key "zzz"
leaves the index and the layer sequence in disagreement: the direct layer is
named "b" yet only "zzz" resolves. -/
theorem setitem_unconditional (c : Composition) (key : String) (component : Component) :
    (c.setitem key (.inl component)).1 = .ok () ∧
    (c.setitem key (.inl component)).2.layers = c.layers ++ [component] ∧
    (c.setitem key (.inl component)).2.name_to_layer
      = alistInsert key component c.name_to_layer ∧
    (c.setitem key (.inl component)).2.getitem key = .ok component ∧
    (emptyCompo.setitem "zzz" (.inl compB)).2.keys = ["b"] ∧
    exceptIsOk ((emptyCompo.setitem "zzz" (.inl compB)).2.getitem "b") = false := by
  refine ⟨rfl, rfl, rfl, ?_, rfl, rfl⟩
  simp [Composition.setitem, Composition.getitem, alistLookup_insert]

end Movis
